import Mathlib

set_option maxHeartbeats 1000000

/-!
Shallow embedding of the multi-sink virtual-camera frame distributor described
by the design spec of this repository, together with an embedding of the
example script src/examples/multi_device.py. The library core (FormatConverter,
SinkHandle, FrameDistributor, FramePacer, CameraSession) is not present under
src/ — only its caller, the example script, is — so the core definitions are
modelled from the spec, as their doc comments record. The example-side
definitions are translated from the example script itself.
-/

namespace PyVirtualCam

/-- Modelled from the spec: the four error kinds of the error-handling design
(ConfigError, DeviceOpenError, InvalidFrameSize, DeviceWriteError). -/
inductive CamError where
  | ConfigError : CamError
  | DeviceOpenError : String → CamError
  | InvalidFrameSize : CamError
  | DeviceWriteError : String → CamError
deriving DecidableEq, Repr

/-- Clamp a signed intermediate value into the byte range. -/
def clampByte (z : ℤ) : Nat := (max 0 (min 255 z)).toNat

/-- Modelled from the spec: luma sample of one RGB pixel. The missing
FormatConverter body is not fixed numerically by the spec (only that the
conversion is a deterministic single pass producing the 4:2:0 layout), so the
standard BT.601 integer approximation is used. -/
def lumaOf (r g b : Nat) : Nat := (66 * r + 129 * g + 25 * b + 4224) / 256

/-- Modelled from the spec: U chroma sample of one RGB pixel (BT.601 integer
approximation, see lumaOf). -/
def uOf (r g b : Nat) : Nat :=
  clampByte (((-38) * (r : ℤ) - 74 * (g : ℤ) + 112 * (b : ℤ) + 32896) / 256)

/-- Modelled from the spec: V chroma sample of one RGB pixel (BT.601 integer
approximation, see lumaOf). -/
def vOf (r g b : Nat) : Nat :=
  clampByte ((112 * (r : ℤ) - 94 * (g : ℤ) - 18 * (b : ℤ) + 32896) / 256)

/-- Modelled from the spec: full-resolution luma plane of the I420 output, one
sample per source pixel of the interleaved RGB buffer. -/
def yPlane (w h : Nat) (raw : List Nat) : List Nat :=
  (List.range (w * h)).map fun idx =>
    lumaOf (raw.getD (3 * idx) 0) (raw.getD (3 * idx + 1) 0) (raw.getD (3 * idx + 2) 0)

/-- Byte index into the interleaved RGB buffer of the top-left source pixel of
chroma block `idx` (2×2 subsampling). -/
def chromaIdx (w : Nat) (idx : Nat) : Nat :=
  3 * (2 * (idx / (w / 2)) * w + 2 * (idx % (w / 2)))

/-- Modelled from the spec: quarter-size U plane of the I420 output (2×2
subsampled chroma). -/
def uPlane (w h : Nat) (raw : List Nat) : List Nat :=
  (List.range (w / 2 * (h / 2))).map fun idx =>
    uOf (raw.getD (chromaIdx w idx) 0) (raw.getD (chromaIdx w idx + 1) 0)
      (raw.getD (chromaIdx w idx + 2) 0)

/-- Modelled from the spec: quarter-size V plane of the I420 output (2×2
subsampled chroma). -/
def vPlane (w h : Nat) (raw : List Nat) : List Nat :=
  (List.range (w / 2 * (h / 2))).map fun idx =>
    vOf (raw.getD (chromaIdx w idx) 0) (raw.getD (chromaIdx w idx + 1) 0)
      (raw.getD (chromaIdx w idx + 2) 0)

/-- Modelled from the spec: the FormatConverter body — single-pass RGB→I420
(planar 4:2:0) transform: full-resolution luma plane followed by the two
2×2-subsampled chroma planes. -/
def rgbToI420 (w h : Nat) (raw : List Nat) : List Nat :=
  yPlane w h raw ++ uPlane w h raw ++ vPlane w h raw

/-- Modelled from the spec: FormatConverter.convert — fails with
InvalidFrameSize unless raw.size equals width × height × source-channel-count
(3 for interleaved RGB), otherwise deterministically produces the I420
buffer. -/
def convert (w h : Nat) (raw : List Nat) : Except CamError (List Nat) :=
  if raw.length = w * h * 3 then .ok (rgbToI420 w h raw) else .error .InvalidFrameSize

/-- Modelled from the spec: SinkHandle — one output device of the session:
device identifier plus the open/closed state of the underlying resource. -/
structure SinkHandle where
  deviceId : String
  isOpen : Bool
deriving DecidableEq, Repr

/-- Modelled from the spec: SinkHandle.close — releases the underlying device
resource exactly once (the returned flag records whether a release was
performed by this call); idempotent if already closed. -/
def SinkHandle.close (s : SinkHandle) : SinkHandle × Bool :=
  if s.isOpen then ({ s with isOpen := false }, true) else (s, false)

/-- Device-resource events: each acquisition and release of an underlying
device resource, in order of occurrence. -/
inductive ResEvent where
  | acquire : String → ResEvent
  | release : String → ResEvent
deriving DecidableEq, Repr

/-- Number of occurrences of the given resource event in a trace. -/
def countRes (ev : ResEvent) (tr : List ResEvent) : Nat :=
  tr.countP fun x => decide (x = ev)

/-- Modelled from the spec: open the requested devices in caller order; if a
device fails to open, every already-opened sink is closed (rollback) before
the DeviceOpenError is surfaced. `openable` is the device-I/O collaborator
(whether opening a given device succeeds). The returned trace records every
device-resource acquire and release performed. -/
def openDevices (openable : String → Bool) :
    List String → Except CamError (List SinkHandle) × List ResEvent
  | [] => (.ok [], [])
  | d :: ds =>
    if openable d then
      match openDevices openable ds with
      | (.ok sinks, tr) => (.ok (⟨d, true⟩ :: sinks), .acquire d :: tr)
      | (.error e, tr) => (.error e, .acquire d :: (tr ++ [.release d]))
    else
      (.error (.DeviceOpenError d), [])

/-- Modelled from the spec: CameraSession state — resolution, pacing interval
and the ordered sinks (insertion order = caller-supplied device order). -/
structure CameraSession where
  width : Nat
  height : Nat
  interval : ℚ
  sinks : List SinkHandle
deriving DecidableEq, Repr

/-- Modelled from the spec: CameraSession open — fails with ConfigError if the
resolution or frame rate is non-positive or the device list is empty;
otherwise opens every device in order, rolling back the already-opened sinks
if one fails. Returns the session (or the error) together with the
device-resource trace. -/
def openSession (openable : String → Bool) (width height : ℤ) (fps : ℚ)
    (devices : List String) : Except CamError CameraSession × List ResEvent :=
  if width ≤ 0 ∨ height ≤ 0 ∨ fps ≤ 0 ∨ devices = [] then
    (.error .ConfigError, [])
  else
    match openDevices openable devices with
    | (.ok sinks, tr) => (.ok ⟨width.toNat, height.toNat, 1 / fps, sinks⟩, tr)
    | (.error e, tr) => (.error e, tr)

/-- Send-side events: one conversion (with its output buffer), and one write
per sink (with the buffer handed to the sink and the write outcome). -/
inductive SendEvent where
  | convertEv : List Nat → SendEvent
  | writeEv : String → List Nat → Bool → SendEvent
deriving DecidableEq, Repr

/-- Whether a send event is a format-conversion invocation. -/
def SendEvent.isConvert : SendEvent → Bool
  | .convertEv _ => true
  | .writeEv _ _ _ => false

/-- Modelled from the spec: FrameDistributor.distribute — converts once, then
writes the single shared converted buffer to every sink in insertion order;
per-sink outcomes are collected into the per-frame result, and a write failure
of one sink is recorded there, never raised. `writeOk` is the device-I/O
collaborator outcome for each sink write. The returned trace records the
conversion invocation and every sink write. -/
def distribute (writeOk : String → Bool) (width height : Nat)
    (sinks : List SinkHandle) (raw : List Nat) :
    Except CamError (List (String × Bool)) × List SendEvent :=
  match convert width height raw with
  | .error e => (.error e, [])
  | .ok buf =>
      (.ok (sinks.map fun s => (s.deviceId, writeOk s.deviceId)),
       .convertEv buf :: sinks.map fun s => .writeEv s.deviceId buf (writeOk s.deviceId))

/-- Modelled from the spec: CameraSession.send — delegates to distribute over
the session sinks; the session state itself is unchanged by send (the second
component is the session after the call). -/
def CameraSession.send (c : CameraSession) (writeOk : String → Bool) (raw : List Nat) :
    (Except CamError (List (String × Bool)) × List SendEvent) × CameraSession :=
  (distribute writeOk c.width c.height c.sinks raw, c)

/-- Modelled from the spec: FramePacer state — pacing interval (1/fps) and the
timestamp of the last frame, absent before the first call. -/
structure FramePacer where
  interval : ℚ
  lastTimestamp : Option ℚ
deriving DecidableEq, Repr

/-- Modelled from the spec: FramePacer sleep-until-next-frame — the first call
records the monotonic reading `now` as baseline and returns without sleeping;
each later call computes elapsed = now − last_timestamp, sleeps
max(0, interval − elapsed), and sets last_timestamp := now + slept. Returns
the slept duration and the updated pacer. -/
def FramePacer.sleepUntilNextFrame (p : FramePacer) (now : ℚ) : ℚ × FramePacer :=
  match p.lastTimestamp with
  | none => (0, { p with lastTimestamp := some now })
  | some last =>
      let slept := max 0 (p.interval - (now - last))
      (slept, { p with lastTimestamp := some (now + slept) })

/-- Observable device-side state: the log of device I/O performed so far. -/
structure DeviceWorld where
  ioLog : List SendEvent
deriving DecidableEq, Repr

/-- Modelled from the spec: convert run against the device world. Convert
performs no device I/O and has no side effect beyond producing its output
buffer, so the world passes through untouched; stating it this way lets purity
be proved as a property over worlds. -/
def convertRun (w h : Nat) (raw : List Nat) (world : DeviceWorld) :
    Except CamError (List Nat) × DeviceWorld :=
  (convert w h raw, world)

/-- The hsv_to_rgb routine of the colorsys module of the Python standard
library, as called at src/examples/multi_device.py lines 27 and 41, embedded
over exact rationals in place of IEEE floats (the hue values the example feeds
it are exact hundredths; int() truncation coincides with the floor on the
nonnegative values arising here). -/
def hsvToRgb (h s v : ℚ) : ℚ × ℚ × ℚ :=
  if s = 0 then (v, v, v)
  else
    let i : ℤ := ⌊h * 6⌋
    let f : ℚ := h * 6 - (i : ℚ)
    let p := v * (1 - s)
    let q := v * (1 - s * f)
    let t := v * (1 - s * (1 - f))
    let j := i % 6
    if j = 0 then (v, t, p)
    else if j = 1 then (q, v, p)
    else if j = 2 then (p, v, t)
    else if j = 3 then (p, q, v)
    else if j = 4 then (t, p, v)
    else (v, p, q)

/-- Frame color computed at loop iteration i of either example loop
(src/examples/multi_device.py lines 26-28 and 40-42): hue (i % 100)/100 at
full saturation and value, converted to RGB and scaled by 255; the numpy
assignment into a uint8 array truncates, which is the floor on these
nonnegative values. -/
def exampleColor (i : Nat) : Nat × Nat × Nat :=
  let rgb := hsvToRgb (((i % 100 : Nat) : ℚ) / 100) 1 1
  (⌊rgb.1 * 255⌋.toNat, ⌊rgb.2.1 * 255⌋.toNat, ⌊rgb.2.2 * 255⌋.toNat)

/-- n pixels of one solid color, flattened to the contiguous interleaved RGB
byte buffer numpy exposes. -/
def solidPixels (r g b : Nat) : Nat → List Nat
  | 0 => []
  | n + 1 => r :: g :: b :: solidPixels r g b n

/-- Width configured by both example sessions (src/examples/multi_device.py
lines 22 and 34). -/
def exampleWidth : Nat := 1280

/-- Height configured by both example sessions (src/examples/multi_device.py
lines 22 and 34). -/
def exampleHeight : Nat := 720

/-- Contents of the frame array passed to cam.send at iteration i of either
example loop: the array allocated at lines 24 and 38 as
np.zeros((cam.height, cam.width, 3), np.uint8) holds, after the solid-color
assignment at lines 28 and 42, height × width pixels of the iteration color,
row-major and interleaved. -/
def exampleFrame (i : Nat) : List Nat :=
  solidPixels (exampleColor i).1 (exampleColor i).2.1 (exampleColor i).2.2
    (exampleWidth * exampleHeight)

/-- A session as both examples configure it: 1280×720 at 20 fps over the given
sinks (src/examples/multi_device.py lines 22 and 34-35). -/
def exampleSession (sinks : List SinkHandle) : CameraSession :=
  ⟨exampleWidth, exampleHeight, 1 / 20, sinks⟩

/-- Length of a flattened solid-color pixel run. -/
theorem solidPixels_length (r g b : Nat) : ∀ n, (solidPixels r g b n).length = 3 * n := by
  intro n
  induction n with
  | zero => rfl
  | succ m ih => simp [solidPixels, ih]; ring

/-- The luma plane has one sample per source pixel. -/
theorem yPlane_length (w h : Nat) (raw : List Nat) : (yPlane w h raw).length = w * h := by
  simp [yPlane]

/-- The U plane is quarter size. -/
theorem uPlane_length (w h : Nat) (raw : List Nat) :
    (uPlane w h raw).length = w / 2 * (h / 2) := by
  simp [uPlane]

/-- The V plane is quarter size. -/
theorem vPlane_length (w h : Nat) (raw : List Nat) :
    (vPlane w h raw).length = w / 2 * (h / 2) := by
  simp [vPlane]

/-- The I420 output buffer size is determined by the configured resolution
alone: luma plane plus two quarter-size chroma planes. -/
theorem rgbToI420_length (w h : Nat) (raw : List Nat) :
    (rgbToI420 w h raw).length = w * h + w / 2 * (h / 2) + w / 2 * (h / 2) := by
  simp [rgbToI420, yPlane_length, uPlane_length, vPlane_length]
  ring

/-- C1: for every session with a valid raw frame of the configured size, one
send() invokes the format conversion exactly once — regardless of the number
of sinks, since the session and its sink list are universally quantified — and
the single converted buffer is what every sink write receives. -/
theorem send_converts_once (c : CameraSession) (writeOk : String → Bool) (raw : List Nat)
    (hsize : raw.length = c.width * c.height * 3) :
    ((c.send writeOk raw).1.2.countP SendEvent.isConvert) = 1 ∧
    SendEvent.convertEv (rgbToI420 c.width c.height raw) ∈ (c.send writeOk raw).1.2 ∧
    (∀ s ∈ c.sinks,
      SendEvent.writeEv s.deviceId (rgbToI420 c.width c.height raw) (writeOk s.deviceId) ∈
        (c.send writeOk raw).1.2) ∧
    (∀ id buf ok, SendEvent.writeEv id buf ok ∈ (c.send writeOk raw).1.2 →
      buf = rgbToI420 c.width c.height raw) := by
  have hconv : convert c.width c.height raw = .ok (rgbToI420 c.width c.height raw) := by
    simp [convert, hsize]
  simp only [CameraSession.send, distribute, hconv]
  refine ⟨?_, ?_, ?_, ?_⟩
  · rw [List.countP_cons]
    have h0 : (c.sinks.map fun s =>
        SendEvent.writeEv s.deviceId (rgbToI420 c.width c.height raw)
          (writeOk s.deviceId)).countP SendEvent.isConvert = 0 := by
      apply List.countP_eq_zero.mpr
      intro e he
      obtain ⟨s, _, rfl⟩ := List.mem_map.mp he
      simp [SendEvent.isConvert]
    simp [h0, SendEvent.isConvert]
  · exact List.mem_cons_self _ _
  · intro s hs
    exact List.mem_cons_of_mem _ (List.mem_map_of_mem _ hs)
  · intro id buf ok hmem
    rcases List.mem_cons.mp hmem with heq | hmap
    · cases heq
    · obtain ⟨s, _, heq⟩ := List.mem_map.mp hmap
      cases heq
      rfl

/-- Witness for C1 at a 2×2 session with three sinks. -/
theorem send_converts_once_witness :
    (List.replicate 12 7).length = 2 * 2 * 3 ∧
    (((⟨2, 2, 1/20, [⟨"/dev/video0", true⟩, ⟨"/dev/video1", true⟩, ⟨"/dev/video2", true⟩]⟩ :
        CameraSession).send (fun _ => true)
        (List.replicate 12 7)).1.2.countP SendEvent.isConvert) = 1 :=
  ⟨rfl,
    (send_converts_once
      ⟨2, 2, 1/20, [⟨"/dev/video0", true⟩, ⟨"/dev/video1", true⟩, ⟨"/dev/video2", true⟩]⟩
      (fun _ => true) (List.replicate 12 7) rfl).1⟩

/-- C2: when exactly one sink write fails (the sink named `bad` fails, every
other sink succeeds), send still delivers the converted frame to every other
sink, the per-sink failure is reported in the per-frame result, and the call
returns that result rather than raising an error. -/
theorem send_isolates_write_failure (c : CameraSession) (writeOk : String → Bool)
    (raw : List Nat) (bad : String)
    (hsize : raw.length = c.width * c.height * 3)
    (hbad : writeOk bad = false)
    (hrest : ∀ s ∈ c.sinks, s.deviceId ≠ bad → writeOk s.deviceId = true) :
    (c.send writeOk raw).1.1 =
      .ok (c.sinks.map fun s => (s.deviceId, writeOk s.deviceId)) ∧
    (∀ s ∈ c.sinks, s.deviceId = bad →
      (s.deviceId, false) ∈ c.sinks.map fun s => (s.deviceId, writeOk s.deviceId)) ∧
    (∀ s ∈ c.sinks, s.deviceId ≠ bad →
      SendEvent.writeEv s.deviceId (rgbToI420 c.width c.height raw) true ∈
        (c.send writeOk raw).1.2) := by
  have hconv : convert c.width c.height raw = .ok (rgbToI420 c.width c.height raw) := by
    simp [convert, hsize]
  simp only [CameraSession.send, distribute, hconv]
  refine ⟨trivial, ?_, ?_⟩
  · intro s hs hsd
    have h1 : (s.deviceId, writeOk s.deviceId) ∈
        c.sinks.map fun s => (s.deviceId, writeOk s.deviceId) :=
      List.mem_map_of_mem _ hs
    rw [hsd, hbad] at h1
    rw [hsd]
    exact h1
  · intro s hs hsd
    have h1 : SendEvent.writeEv s.deviceId (rgbToI420 c.width c.height raw)
        (writeOk s.deviceId) ∈
        c.sinks.map fun s =>
          SendEvent.writeEv s.deviceId (rgbToI420 c.width c.height raw)
            (writeOk s.deviceId) :=
      List.mem_map_of_mem _ hs
    rw [hrest s hs hsd] at h1
    exact List.mem_cons_of_mem _ h1

/-- Witness for C2: three sinks, the middle one fails, the other two still
receive the converted frame. -/
theorem send_isolates_write_failure_witness :
    (List.replicate 12 7).length = 2 * 2 * 3 ∧
    ((fun d => !(d == "/dev/video1")) "/dev/video1") = false ∧
    ((⟨2, 2, 1/20, [⟨"/dev/video0", true⟩, ⟨"/dev/video1", true⟩, ⟨"/dev/video2", true⟩]⟩ :
        CameraSession).send (fun d => !(d == "/dev/video1"))
        (List.replicate 12 7)).1.1 =
      .ok [("/dev/video0", true), ("/dev/video1", false), ("/dev/video2", true)] :=
  ⟨rfl, rfl,
    (send_isolates_write_failure
      ⟨2, 2, 1/20, [⟨"/dev/video0", true⟩, ⟨"/dev/video1", true⟩, ⟨"/dev/video2", true⟩]⟩
      (fun d => !(d == "/dev/video1")) (List.replicate 12 7) "/dev/video1" rfl rfl
      (by intro s hs hd; fin_cases hs <;> simp_all)).1⟩

/-- When opening the device list fails, the resource trace is balanced: for
every device identifier, the number of acquires equals the number of
releases. -/
theorem openDevices_error_balanced (openable : String → Bool) :
    ∀ (ds : List String) (e : CamError) (tr : List ResEvent),
      openDevices openable ds = (.error e, tr) →
      ∀ id, countRes (.acquire id) tr = countRes (.release id) tr := by
  intro ds
  induction ds with
  | nil =>
    intro e tr hm id
    simp [openDevices] at hm
  | cons d ds ih =>
    intro e tr hm id
    by_cases hd : openable d
    · rcases hres : openDevices openable ds with ⟨res, tr0⟩
      cases res with
      | ok sinks =>
        rw [openDevices, if_pos hd, hres] at hm
        simp at hm
      | error e0 =>
        rw [openDevices, if_pos hd, hres] at hm
        obtain ⟨-, htr⟩ := Prod.mk.injEq .. ▸ hm
        subst htr
        have hbal := ih e0 tr0 (by rw [hres]) id
        by_cases hid : d = id
        · subst hid
          simp only [countRes, List.countP_cons, List.countP_append] at hbal ⊢
          simp only [decide_eq_true_eq]
          simp [hbal]
        · have hid2 : ¬(ResEvent.acquire d = ResEvent.acquire id) := by simp [hid]
          have hid3 : ¬(ResEvent.release d = ResEvent.release id) := by simp [hid]
          simp only [countRes, List.countP_cons, List.countP_append] at hbal ⊢
          simp [hid2, hid3, hbal]
    · rw [openDevices, if_neg hd] at hm
      obtain ⟨-, htr⟩ := Prod.mk.injEq .. ▸ hm
      subst htr
      simp [countRes]

/-- C3: when open fails after some devices opened, every already-opened sink
was closed before the error surfaced: the device-resource trace of the failed
open is balanced (each acquire matched by a release), so zero open device
resources remain. -/
theorem openSession_rollback (openable : String → Bool) (width height : ℤ) (fps : ℚ)
    (devices : List String) (e : CamError)
    (h : (openSession openable width height fps devices).1 = .error e) :
    ∀ id,
      countRes (.acquire id) (openSession openable width height fps devices).2 =
        countRes (.release id) (openSession openable width height fps devices).2 := by
  intro id
  by_cases hcfg : width ≤ 0 ∨ height ≤ 0 ∨ fps ≤ 0 ∨ devices = []
  · simp [openSession, hcfg, countRes]
  · rcases hres : openDevices openable devices with ⟨res, tr⟩
    cases res with
    | ok sinks => simp [openSession, hcfg, hres] at h
    | error e0 =>
      have hbal := openDevices_error_balanced openable devices e0 tr hres id
      simp [openSession, hcfg, hres]
      exact hbal

/-- Witness for C3: the second of two devices fails to open; the first is
acquired and then released by the rollback. -/
theorem openSession_rollback_witness :
    (openSession (fun d => d == "/dev/video0") 1280 720 20
        ["/dev/video0", "/dev/video1"]).1 =
      .error (.DeviceOpenError "/dev/video1") ∧
    countRes (.acquire "/dev/video0")
        (openSession (fun d => d == "/dev/video0") 1280 720 20
          ["/dev/video0", "/dev/video1"]).2 =
      countRes (.release "/dev/video0")
        (openSession (fun d => d == "/dev/video0") 1280 720 20
          ["/dev/video0", "/dev/video1"]).2 :=
  ⟨by rfl,
    openSession_rollback (fun d => d == "/dev/video0") 1280 720 20
      ["/dev/video0", "/dev/video1"] (.DeviceOpenError "/dev/video1") (by rfl)
      "/dev/video0"⟩

/-- C4: open with a non-positive resolution, a non-positive frame rate, or an
empty device list fails with ConfigError, creating no session and touching no
device resource. -/
theorem openSession_config_error (openable : String → Bool) (width height : ℤ)
    (fps : ℚ) (devices : List String)
    (h : width ≤ 0 ∨ height ≤ 0 ∨ fps ≤ 0 ∨ devices = []) :
    openSession openable width height fps devices = (.error .ConfigError, []) := by
  simp only [openSession]
  rw [if_pos h]

/-- Witness for C4 at width 0. -/
theorem openSession_config_error_witness :
    ((0 : ℤ) ≤ 0 ∨ (720 : ℤ) ≤ 0 ∨ (20 : ℚ) ≤ 0 ∨ ["/dev/video0"] = ([] : List String)) ∧
    openSession (fun _ => true) 0 720 20 ["/dev/video0"] = (.error .ConfigError, []) :=
  ⟨Or.inl le_rfl,
    openSession_config_error (fun _ => true) 0 720 20 ["/dev/video0"] (Or.inl le_rfl)⟩

/-- C5: send with a raw frame whose size is not width × height × 3 fails with
InvalidFrameSize, leaves the session unchanged (hence still open), and a
correctly-sized send on the same session succeeds with the per-sink result. -/
theorem send_invalid_size_recoverable (c : CameraSession) (writeOk : String → Bool)
    (raw : List Nat) (h : raw.length ≠ c.width * c.height * 3) :
    (c.send writeOk raw).1.1 = .error .InvalidFrameSize ∧
    (c.send writeOk raw).2 = c ∧
    ∀ raw2 : List Nat, raw2.length = c.width * c.height * 3 →
      (c.send writeOk raw2).1.1 =
        .ok (c.sinks.map fun s => (s.deviceId, writeOk s.deviceId)) := by
  refine ⟨?_, rfl, ?_⟩
  · simp [CameraSession.send, distribute, convert, h]
  · intro raw2 h2
    simp [CameraSession.send, distribute, convert, h2]

/-- Witness for C5: a one-byte frame on a 2×2 session fails, a 12-byte frame
then succeeds. -/
theorem send_invalid_size_recoverable_witness :
    ([0].length ≠ 2 * 2 * 3) ∧
    ((⟨2, 2, 1/20, [⟨"/dev/video0", true⟩]⟩ : CameraSession).send
        (fun _ => true) [0]).1.1 = .error .InvalidFrameSize :=
  ⟨by decide,
    (send_invalid_size_recoverable ⟨2, 2, 1/20, [⟨"/dev/video0", true⟩]⟩
      (fun _ => true) [0] (by decide)).1⟩

/-- C6: every sleep-until-next-frame call after the first (the pacer already
holds a last timestamp) sleeps exactly max(0, interval − elapsed) with
elapsed = now − last, sets last_timestamp := now + slept, never sleeps a
negative duration, and when elapsed already exceeds the interval it sleeps
zero. -/
theorem sleepUntilNextFrame_subsequent (p : FramePacer) (now last : ℚ)
    (h : p.lastTimestamp = some last) :
    (p.sleepUntilNextFrame now).1 = max 0 (p.interval - (now - last)) ∧
    (p.sleepUntilNextFrame now).2.lastTimestamp =
      some (now + (p.sleepUntilNextFrame now).1) ∧
    0 ≤ (p.sleepUntilNextFrame now).1 ∧
    (p.interval < now - last → (p.sleepUntilNextFrame now).1 = 0) := by
  simp only [FramePacer.sleepUntilNextFrame, h]
  refine ⟨trivial, trivial, le_max_left _ _, fun hlt => ?_⟩
  exact max_eq_left (by linarith)

/-- Witness for C6: interval 1/20 seconds, last timestamp 0, called at time 1
(elapsed 1 exceeds the interval): the call sleeps zero. -/
theorem sleepUntilNextFrame_subsequent_witness :
    (⟨1/20, some 0⟩ : FramePacer).lastTimestamp = some 0 ∧
    ((1 : ℚ)/20 < 1 - 0) ∧
    ((⟨1/20, some 0⟩ : FramePacer).sleepUntilNextFrame 1).1 = 0 :=
  ⟨rfl, by norm_num,
    (sleepUntilNextFrame_subsequent ⟨1/20, some 0⟩ 1 0 rfl).2.2.2 (by norm_num)⟩

/-- C7: close releases the device resource exactly once — on an open handle,
close performs the release and marks the handle closed; a second close on the
already-closed handle performs no further release and does not fail, leaving
the handle state identical to a single close. -/
theorem close_idempotent_release_once (s : SinkHandle) :
    s.close.1.isOpen = false ∧
    s.close.1.close = (s.close.1, false) ∧
    (s.isOpen = true → s.close = (⟨s.deviceId, false⟩, true)) := by
  rcases s with ⟨d, o⟩
  cases o <;> simp [SinkHandle.close]

/-- Witness for C7 on an open handle. -/
theorem close_idempotent_release_once_witness :
    (⟨"/dev/video0", true⟩ : SinkHandle).isOpen = true ∧
    (⟨"/dev/video0", true⟩ : SinkHandle).close = (⟨"/dev/video0", false⟩, true) :=
  ⟨rfl, (close_idempotent_release_once ⟨"/dev/video0", true⟩).2.2 rfl⟩

/-- C8: convert is a deterministic pure function of the input buffer and the
configured formats — run against any two device worlds it returns the same
value, and it leaves the device world (its I/O log) untouched; equal input
buffers give equal outputs; and on a size-valid input it produces the output
buffer whose size is fixed by the configured resolution alone (luma plane plus
two quarter-size chroma planes). -/
theorem convert_pure (w h : Nat) (raw : List Nat) (world1 world2 : DeviceWorld) :
    (convertRun w h raw world1).1 = (convertRun w h raw world2).1 ∧
    (convertRun w h raw world1).2 = world1 ∧
    (∀ raw2 : List Nat, raw = raw2 → convert w h raw = convert w h raw2) ∧
    (raw.length = w * h * 3 →
      convert w h raw = .ok (rgbToI420 w h raw) ∧
      (rgbToI420 w h raw).length = w * h + w / 2 * (h / 2) + w / 2 * (h / 2)) := by
  refine ⟨rfl, rfl, fun raw2 hr => by rw [hr], fun hs => ⟨?_, rgbToI420_length w h raw⟩⟩
  simp [convert, hs]

/-- Witness for C8 on a 2×2 frame and two distinct worlds. -/
theorem convert_pure_witness :
    (List.replicate 12 7).length = 2 * 2 * 3 ∧
    convert 2 2 (List.replicate 12 7) = .ok (rgbToI420 2 2 (List.replicate 12 7)) ∧
    (convertRun 2 2 (List.replicate 12 7) ⟨[]⟩).1 =
      (convertRun 2 2 (List.replicate 12 7) ⟨[.convertEv []]⟩).1 :=
  ⟨rfl,
    ((convert_pure 2 2 (List.replicate 12 7) ⟨[]⟩ ⟨[.convertEv []]⟩).2.2.2 rfl).1,
    (convert_pure 2 2 (List.replicate 12 7) ⟨[]⟩ ⟨[.convertEv []]⟩).1⟩

/-- When convert succeeds, distribute returns the per-sink outcome list and
the trace of one conversion followed by one write per sink, all carrying the
converted buffer. -/
theorem distribute_ok (writeOk : String → Bool) (w h : Nat) (sinks : List SinkHandle)
    (raw buf : List Nat) (hc : convert w h raw = .ok buf) :
    distribute writeOk w h sinks raw =
      (.ok (sinks.map fun s => (s.deviceId, writeOk s.deviceId)),
       .convertEv buf :: sinks.map fun s => .writeEv s.deviceId buf (writeOk s.deviceId)) := by
  simp only [distribute, hc]

/-- C9: every frame either example loop passes to send has exactly the
configured width × height × 3 size, so on the example sessions (1280×720, any
sinks) send never takes the InvalidFrameSize branch: it always returns the
per-sink outcome list. -/
theorem exampleFrame_never_invalid (i : Nat) (sinks : List SinkHandle)
    (writeOk : String → Bool) :
    (exampleFrame i).length = exampleWidth * exampleHeight * 3 ∧
    ((exampleSession sinks).send writeOk (exampleFrame i)).1.1 =
      .ok (sinks.map fun s => (s.deviceId, writeOk s.deviceId)) := by
  have hlen : (exampleFrame i).length = exampleWidth * exampleHeight * 3 := by
    simp only [exampleFrame, solidPixels_length]
    ring
  refine ⟨hlen, ?_⟩
  have hconv : convert exampleWidth exampleHeight (exampleFrame i) =
      .ok (rgbToI420 exampleWidth exampleHeight (exampleFrame i)) := by
    unfold convert
    rw [if_pos hlen]
  have hsend : (exampleSession sinks).send writeOk (exampleFrame i) =
      (distribute writeOk exampleWidth exampleHeight sinks (exampleFrame i),
       exampleSession sinks) := rfl
  rw [hsend,
    distribute_ok writeOk exampleWidth exampleHeight sinks (exampleFrame i) _ hconv]

/-- C10: the frame content generated at iteration i of either example loop is
a pure function of i mod 100: whenever i ≡ j (mod 100), the frames sent at
iterations i and j have identical pixel values. -/
theorem exampleFrame_periodic (i j : Nat) (h : i % 100 = j % 100) :
    exampleFrame i = exampleFrame j := by
  have hc : exampleColor i = exampleColor j := by
    simp only [exampleColor, h]
  simp only [exampleFrame, hc]

/-- Witness for C10 at iterations 5 and 205. -/
theorem exampleFrame_periodic_witness :
    5 % 100 = 205 % 100 ∧ exampleFrame 5 = exampleFrame 205 :=
  ⟨by decide, exampleFrame_periodic 5 205 (by decide)⟩

end PyVirtualCam
